import Mathlib

/-!
Shallow embedding of the database layer of dqlite (`src/c/src/db.c`).

The SQLite engine, the statement registry and the error-context helpers are
external collaborators of `db.c`.  Engine calls are modelled by oracles: each
operation takes, for every engine call it performs, the result code (and the
`sqlite3_errmsg` text) that the engine would produce, and the Lean function
reproduces exactly the control flow of the C function on those results.
C `assert` statements are modelled by returning `none` (an aborted execution);
functions whose only asserts are non-NULL pointer checks stay total.
-/

namespace Dqlite

/-- SQLite result code `SQLITE_OK`. -/
def SQLITE_OK : Int := 0

/-- SQLite result code `SQLITE_BUSY`. -/
def SQLITE_BUSY : Int := 5

/-- SQLite result code `SQLITE_NOMEM`. -/
def SQLITE_NOMEM : Int := 7

/-- The observable outcome of one `sqlite3_exec`-style engine call: the result
code and the text `sqlite3_errmsg` would return on the connection afterwards. -/
structure ExecResult where
  rc : Int
  errmsg : String
deriving DecidableEq

/-- One prepared-statement object (`struct dqlite__stmt`): its registry id, the
borrowed engine-connection handle (`stmt->db`), the compiled engine statement
handle (`stmt->stmt`, `none` models NULL) and the unconsumed SQL tail. -/
structure Stmt where
  id : Nat
  db : Option Nat
  stmt : Option Nat
  tail : String
deriving DecidableEq

/-- The statement registry is a finite map from ids to statement objects,
modelled as a list of entries with distinct ids. -/
abbrev StmtRegistry := List Stmt

/-- The ids currently live in a registry. -/
def registryIds (r : StmtRegistry) : List Nat :=
  r.map (fun s => s.id)

/-- Search for a free id starting at `n` with the given fuel. -/
def freeFrom (ids : List Nat) : Nat → Nat → Nat
  | 0, n => n
  | k + 1, n => if n ∈ ids then freeFrom ids k (n + 1) else n

/-- The lowest id not currently used by the registry. -/
def lowestFreeId (r : StmtRegistry) : Nat :=
  freeFrom (registryIds r) ((registryIds r).length + 1) 0

/-- Modelled from the spec: `dqlite__stmt_registry_add` "allocates the lowest
free ID, constructs a new owned object in place, returns both"; the new object
starts blank.  (The registry implementation is not part of the sources at
hand, only its behaviour as specified.)  The out-of-memory failure mode is
modelled separately by the caller's oracle. -/
def dqlite__stmt_registry_add (r : StmtRegistry) : StmtRegistry × Stmt :=
  let s : Stmt := { id := lowestFreeId r, db := none, stmt := none, tail := "" }
  (r ++ [s], s)

/-- Modelled from the spec: `dqlite__stmt_registry_get` looks a statement up
by id, reporting not-found as `none`. -/
def dqlite__stmt_registry_get (r : StmtRegistry) (id : Nat) : Option Stmt :=
  r.find? (fun s => s.id = id)

/-- Modelled from the spec: `dqlite__stmt_registry_del` removes the entry with
the given object's id and returns error code 0 on success; deleting an object
the registry does not own fails with a nonzero code. -/
def dqlite__stmt_registry_del (r : StmtRegistry) (s : Stmt) : Int × StmtRegistry :=
  if s.id ∈ registryIds r then (0, r.filter (fun t => t.id ≠ s.id)) else (1, r)

/-- Replace the registry entry holding `s.id` by `s` (models in-place mutation
of the object the registry owns). -/
def registryUpdate (r : StmtRegistry) (s : Stmt) : StmtRegistry :=
  r.map (fun t => if t.id = s.id then s else t)

/-- The database object (`struct dqlite__db`): error context, statement
registry, transaction flag, and the engine connection handle `db->db`
(`none` models NULL). -/
structure dqlite__db where
  error : String
  stmts : StmtRegistry
  in_a_tx : Int
  db : Option Nat
deriving DecidableEq

/-- Modelled from the spec: `dqlite__error_printf` overwrites the error
context with the formatted message. -/
def dqlite__error_printf (db : dqlite__db) (msg : String) : dqlite__db :=
  { db with error := msg }

/-- Modelled from the spec: `dqlite__error_wrapf` wraps the current error,
"prefixing a lower-level message with the higher-level operation that failed",
preserving the original engine message; the format string is kept as literal
text. -/
def dqlite__error_wrapf (db : dqlite__db) (fmt : String) : dqlite__db :=
  { db with error := fmt ++ ": " ++ db.error }

/-- `dqlite__db_exec`: run one SQL string through `sqlite3_exec`; on failure
record `sqlite3_errmsg` in the db's error context and return the engine code,
otherwise return `SQLITE_OK`. -/
def dqlite__db_exec (db : dqlite__db) (e : ExecResult) : Int × dqlite__db :=
  if e.rc ≠ SQLITE_OK then (e.rc, dqlite__error_printf db e.errmsg)
  else (SQLITE_OK, db)

/-- `dqlite__db_init`: reset error context, registry and transaction flag.
The C code does not touch `db->db`, so init keeps whatever handle the field
held before. -/
def dqlite__db_init (conn0 : Option Nat) : dqlite__db :=
  { error := "", stmts := [], in_a_tx := 0, db := conn0 }

/-- The world a database operation can reach beyond the `dqlite__db` object:
the `tx_refcount` stored on the VFS file content that
`dqlite__db_update_tx_refcount` reaches through `sqlite3_file_control`, and
the set of engine connection handles currently open (used to observe when a
connection is released by `sqlite3_close`). -/
structure DbWorld where
  db : dqlite__db
  tx_refcount : Int
  liveConns : List Nat
deriving DecidableEq

/-- `dqlite__db_update_tx_refcount`: fetch the VFS file object of the main
database through `sqlite3_file_control` (asserted to always succeed) and add
`delta` to its `tx_refcount`. -/
def dqlite__db_update_tx_refcount (w : DbWorld) (delta : Int) : DbWorld :=
  { w with tx_refcount := w.tx_refcount + delta }

/-- The engine results for the calls `dqlite__db_open` makes, in order:
`sqlite3_open_v2` (also the handle it stores into `db->db`),
`sqlite3_extended_result_codes`, the four pragma execs, and
`sqlite3_wal_replication_leader`.  `replErrmsg` is the engine's message for a
failed replication registration; the C code never reads it. -/
structure OpenCalls where
  openRc : Int
  openErrmsg : String
  openHandle : Option Nat
  extRc : Int
  extErrmsg : String
  page : ExecResult
  sync : ExecResult
  wal : ExecResult
  replRc : Int
  replErrmsg : String
  fk : ExecResult
deriving DecidableEq

/-- `dqlite__db_open`: open the connection through the replication VFS, then
configure it step by step, aborting at the first failing step with that step's
engine code and an error message specific to the step. -/
def dqlite__db_open (w : DbWorld) (c : OpenCalls) : Int × DbWorld :=
  let w : DbWorld :=
    { w with
      db := { w.db with db := c.openHandle },
      liveConns :=
        match c.openHandle with
        | some h => h :: w.liveConns
        | none => w.liveConns }
  if c.openRc ≠ SQLITE_OK then
    (c.openRc, { w with db := dqlite__error_printf w.db c.openErrmsg })
  else
  if c.extRc ≠ SQLITE_OK then
    (c.extRc, { w with db := dqlite__error_printf w.db c.extErrmsg })
  else
  let p := dqlite__db_exec w.db c.page
  if p.1 ≠ SQLITE_OK then
    (p.1, { w with db := dqlite__error_wrapf p.2 "unable to set page size" })
  else
  let q := dqlite__db_exec p.2 c.sync
  if q.1 ≠ SQLITE_OK then
    (q.1, { w with db := dqlite__error_wrapf q.2 "unable to switch off syncs" })
  else
  let u := dqlite__db_exec q.2 c.wal
  if u.1 ≠ SQLITE_OK then
    (u.1, { w with db := dqlite__error_wrapf u.2 "unable to set WAL mode: %s" })
  else
  if c.replRc ≠ SQLITE_OK then
    (c.replRc, { w with db := dqlite__error_printf u.2 "unable to set WAL replication" })
  else
  let v := dqlite__db_exec u.2 c.fk
  if v.1 ≠ SQLITE_OK then
    (v.1, { w with db := dqlite__error_wrapf v.2 "unable to set foreign keys checks: %s" })
  else
  (SQLITE_OK, { w with db := v.2 })

/-- `dqlite__db_close`: close the statement registry and the error context,
then, when `db->db` is not NULL, release the engine connection with
`sqlite3_close` (asserted to return `SQLITE_OK`).  `closeRc` is the engine's
result for that call. -/
def dqlite__db_close (w : DbWorld) (closeRc : Int) : Option DbWorld :=
  let db : dqlite__db := { w.db with stmts := [], error := "" }
  match db.db with
  | some h =>
    if closeRc = SQLITE_OK then
      some { w with db := db, liveConns := w.liveConns.erase h }
    else none
  | none => some { w with db := db }

/-- The engine results for the calls `dqlite__db_prepare` makes: whether the
registry add hits out-of-memory, and the `sqlite3_prepare_v2` outcome (result
code, error message, compiled statement handle, unconsumed tail). -/
structure PrepareCalls where
  addFails : Bool
  rc : Int
  errmsg : String
  compiled : Nat
  tail : String
deriving DecidableEq

/-- `dqlite__db_prepare`: register a new statement object first (reserving an
id), then compile the SQL; on compile failure record the engine message,
delete the just-added registry entry and return the engine's code. -/
def dqlite__db_prepare (db : dqlite__db) (c : PrepareCalls) :
    Int × dqlite__db × Option Stmt :=
  if c.addFails then
    (SQLITE_NOMEM, dqlite__error_printf db "unable to register statement", none)
  else
    let a := dqlite__stmt_registry_add db.stmts
    let s : Stmt := { a.2 with db := db.db }
    if c.rc ≠ SQLITE_OK then
      let db1 := dqlite__error_printf db c.errmsg
      let d := dqlite__stmt_registry_del a.1 s
      (c.rc, { db1 with stmts := d.2 }, none)
    else
      let s : Stmt := { s with stmt := some c.compiled, tail := c.tail }
      (SQLITE_OK, { db with stmts := registryUpdate a.1 s }, some s)

/-- `dqlite__db_stmt`: look a statement object up by id. -/
def dqlite__db_stmt (db : dqlite__db) (id : Nat) : Option Stmt :=
  dqlite__stmt_registry_get db.stmts id

/-- `dqlite__db_finalize`: when the compiled statement handle is still set,
finalize it through the engine (recording the engine message on failure) and
null the handle; in all cases delete the registry entry, asserting that the
deletion succeeds.  `finRc`/`finMsg` are the engine's finalize outcome. -/
def dqlite__db_finalize (db : dqlite__db) (s : Stmt) (finRc : Int)
    (finMsg : String) : Option (Int × dqlite__db) :=
  let p : Int × dqlite__db :=
    match s.stmt with
    | some _ =>
      if finRc ≠ SQLITE_OK then (finRc, dqlite__error_printf db finMsg)
      else (finRc, db)
    | none => (SQLITE_OK, db)
  let s : Stmt := { s with stmt := none }
  let d := dqlite__stmt_registry_del p.2.stmts s
  if d.1 = 0 then some (p.1, { p.2 with stmts := d.2 }) else none

/-- `dqlite__db_begin`: exec `BEGIN`; on success assert that `in_a_tx` was 0
(SQLite forbids nested transactions on one connection), set it to 1 and
increment the replication refcount. -/
def dqlite__db_begin (w : DbWorld) (e : ExecResult) : Option (Int × DbWorld) :=
  let p := dqlite__db_exec w.db e
  if p.1 ≠ SQLITE_OK then some (p.1, { w with db := p.2 })
  else if p.2.in_a_tx ≠ 0 then none
  else
    let w1 : DbWorld := { w with db := { p.2 with in_a_tx := 1 } }
    some (SQLITE_OK, dqlite__db_update_tx_refcount w1 1)

/-- `dqlite__db_commit`: exec `COMMIT`; on failure assert the code is not
`SQLITE_BUSY` (contention cannot happen in single-thread mode) and return it;
on success assert `in_a_tx` was 1, clear it and decrement the refcount. -/
def dqlite__db_commit (w : DbWorld) (e : ExecResult) : Option (Int × DbWorld) :=
  let p := dqlite__db_exec w.db e
  if p.1 ≠ SQLITE_OK then
    if p.1 = SQLITE_BUSY then none
    else some (p.1, { w with db := p.2 })
  else if p.2.in_a_tx ≠ 1 then none
  else
    let w1 : DbWorld := { w with db := { p.2 with in_a_tx := 0 } }
    some (SQLITE_OK, dqlite__db_update_tx_refcount w1 (-1))

/-- `dqlite__db_rollback`: exec `ROLLBACK`; unconditionally clear `in_a_tx`
and decrement the refcount, then return the engine's code (also when the
rollback itself failed). -/
def dqlite__db_rollback (w : DbWorld) (e : ExecResult) : Option (Int × DbWorld) :=
  let p := dqlite__db_exec w.db e
  let w1 : DbWorld := { w with db := { p.2 with in_a_tx := 0 } }
  some (p.1, dqlite__db_update_tx_refcount w1 (-1))

/-! ## Sequences of transaction-control calls -/

/-- One transaction-control call together with its engine result. -/
inductive TxOp where
  | tx_begin (e : ExecResult)
  | tx_commit (e : ExecResult)
  | tx_rollback (e : ExecResult)
deriving DecidableEq

/-- Dispatch one transaction-control call on the world. -/
def dqlite__db_step (w : DbWorld) : TxOp → Option (Int × DbWorld)
  | TxOp.tx_begin e => dqlite__db_begin w e
  | TxOp.tx_commit e => dqlite__db_commit w e
  | TxOp.tx_rollback e => dqlite__db_rollback w e

/-- Run a sequence of transaction-control calls; `none` when an assertion
fired along the way. -/
def runTxOps : DbWorld → List TxOp → Option DbWorld
  | w, [] => some w
  | w, op :: ops =>
    match dqlite__db_step w op with
    | some p => runTxOps p.2 ops
    | none => none

/-- The flag value the specification prescribes after a trace, starting from
a given flag: 1 exactly when a BEGIN has succeeded and no later COMMIT has
completed the transaction (returned `SQLITE_OK`) and no later ROLLBACK call
has completed (a rollback call always completes its clearing work, whatever
its code). -/
def specInTxFlag : Int → List TxOp → Int
  | flag, [] => flag
  | flag, TxOp.tx_begin e :: ops =>
    specInTxFlag (if e.rc = SQLITE_OK then 1 else flag) ops
  | flag, TxOp.tx_commit e :: ops =>
    specInTxFlag (if e.rc = SQLITE_OK then 0 else flag) ops
  | _, TxOp.tx_rollback _ :: ops => specInTxFlag 0 ops

/-- The engine's own transaction state on the connection: ghost state used to
say that a trace of engine results conforms to SQLite's transaction
semantics. -/
structure Engine where
  open_tx : Bool
deriving DecidableEq

/-- One engine call behaves as SQLite specifies on a single connection driven
by a single thread: BEGIN succeeds only when no transaction is open, and then
opens one; COMMIT succeeds only when one is open, and then closes it, and a
failing COMMIT cannot report busy (there are no concurrent readers in
single-thread mode); after a ROLLBACK call no transaction is left open,
whatever its result code. -/
def engineConforms (g : Engine) : TxOp → Engine → Prop
  | TxOp.tx_begin e, g1 =>
    (e.rc = SQLITE_OK → g.open_tx = false ∧ g1.open_tx = true) ∧
    (e.rc ≠ SQLITE_OK → g1 = g)
  | TxOp.tx_commit e, g1 =>
    (e.rc = SQLITE_OK → g.open_tx = true ∧ g1.open_tx = false) ∧
    (e.rc ≠ SQLITE_OK → e.rc ≠ SQLITE_BUSY ∧ g1 = g)
  | TxOp.tx_rollback _, g1 => g1.open_tx = false

/-- A whole trace of engine results conforms, chaining the ghost states. -/
def engineRun (g : Engine) : List TxOp → Engine → Prop
  | [], g1 => g1 = g
  | op :: ops, g2 => ∃ g1, engineConforms g op g1 ∧ engineRun g1 ops g2

/-! ## Sample values used by witnesses -/

/-- A freshly initialized database world, as left by `dqlite__db_init`. -/
def w0 : DbWorld :=
  { db := dqlite__db_init none, tx_refcount := 0, liveConns := [] }

/-- A world with an open transaction. -/
def wTx : DbWorld :=
  { db := { dqlite__db_init (some 1) with in_a_tx := 1 },
    tx_refcount := 1, liveConns := [1] }

/-- A successful engine call. -/
def eOK : ExecResult := { rc := SQLITE_OK, errmsg := "" }

/-- A failing engine call (generic error code 1). -/
def eFail : ExecResult := { rc := 1, errmsg := "near SELEC: syntax error" }

/-- A busy engine call. -/
def eBusy : ExecResult := { rc := SQLITE_BUSY, errmsg := "database is locked" }

/-- A registered statement whose engine handle is still live. -/
def sLive : Stmt := { id := 0, db := some 1, stmt := some 7, tail := "" }

/-- A database object holding `sLive` in its registry. -/
def dbOne : dqlite__db :=
  { error := "", stmts := [sLive], in_a_tx := 0, db := some 1 }

/-- Prepare calls whose compilation step reports busy. -/
def pcBusy : PrepareCalls :=
  { addFails := false, rc := SQLITE_BUSY, errmsg := "busy", compiled := 7,
    tail := "" }

/-- Open calls failing with busy at the page-size pragma. -/
def ocBusy : OpenCalls :=
  { openRc := SQLITE_OK, openErrmsg := "", openHandle := some 1,
    extRc := SQLITE_OK, extErrmsg := "", page := eBusy, sync := eOK,
    wal := eOK, replRc := SQLITE_OK, replErrmsg := "", fk := eOK }

/-- Prepare calls whose compilation step fails with a syntax error. -/
def pcFail : PrepareCalls :=
  { addFails := false, rc := 1, errmsg := "near SELEC: syntax error",
    compiled := 0, tail := "" }

/-- The world right after `dqlite__db_init`, with an arbitrary pre-existing
refcount, handle set and connection-field value. -/
def initWorld (conn0 : Option Nat) (tc : Int) (lc : List Nat) : DbWorld :=
  { db := dqlite__db_init conn0, tx_refcount := tc, liveConns := lc }

/-- Open calls in which every engine step succeeds. -/
def ocOK : OpenCalls :=
  { openRc := SQLITE_OK, openErrmsg := "", openHandle := some 1,
    extRc := SQLITE_OK, extErrmsg := "", page := eOK, sync := eOK, wal := eOK,
    replRc := SQLITE_OK, replErrmsg := "", fk := eOK }

/-- Open calls that succeed through every step until the foreign-keys pragma,
which fails. -/
def ocFkFail : OpenCalls :=
  { openRc := SQLITE_OK, openErrmsg := "", openHandle := some 5,
    extRc := SQLITE_OK, extErrmsg := "", page := eOK, sync := eOK, wal := eOK,
    replRc := SQLITE_OK, replErrmsg := "", fk := eFail }

/-- Open calls failing at the page-size pragma. -/
def ocPageFail : OpenCalls :=
  { openRc := SQLITE_OK, openErrmsg := "", openHandle := some 1,
    extRc := SQLITE_OK, extErrmsg := "", page := eFail, sync := eOK, wal := eOK,
    replRc := SQLITE_OK, replErrmsg := "", fk := eOK }

/-- Open calls failing at the synchronous pragma. -/
def ocSyncFail : OpenCalls :=
  { openRc := SQLITE_OK, openErrmsg := "", openHandle := some 1,
    extRc := SQLITE_OK, extErrmsg := "", page := eOK, sync := eFail, wal := eOK,
    replRc := SQLITE_OK, replErrmsg := "", fk := eOK }

/-- Open calls failing at the WAL journal-mode pragma. -/
def ocWalFail : OpenCalls :=
  { openRc := SQLITE_OK, openErrmsg := "", openHandle := some 1,
    extRc := SQLITE_OK, extErrmsg := "", page := eOK, sync := eOK, wal := eFail,
    replRc := SQLITE_OK, replErrmsg := "", fk := eOK }

/-- Open calls failing at the WAL replication leader registration, with a
long engine-side message that the code never reads. -/
def ocReplFail : OpenCalls :=
  { openRc := SQLITE_OK, openErrmsg := "", openHandle := some 1,
    extRc := SQLITE_OK, extErrmsg := "", page := eOK, sync := eOK, wal := eOK,
    replRc := 1,
    replErrmsg := "attempt to register replication on a readonly database",
    fk := eOK }

/-- A conforming sample trace: successful BEGIN, successful COMMIT, then a
failing ROLLBACK with no transaction open. -/
def opsW : List TxOp :=
  [TxOp.tx_begin eOK, TxOp.tx_commit eOK, TxOp.tx_rollback eFail]

/-! ## Computation lemmas for the engine wrapper and the transaction ops -/

theorem dqlite__db_exec_fst (db : dqlite__db) (e : ExecResult) :
    (dqlite__db_exec db e).1 = e.rc := by
  unfold dqlite__db_exec
  split
  · rfl
  · next h => simpa [SQLITE_OK] using (not_not.mp h).symm

theorem dqlite__db_exec_of_ok (db : dqlite__db) (e : ExecResult)
    (h : e.rc = SQLITE_OK) : dqlite__db_exec db e = (SQLITE_OK, db) := by
  simp [dqlite__db_exec, h]

theorem dqlite__db_exec_of_fail (db : dqlite__db) (e : ExecResult)
    (h : e.rc ≠ SQLITE_OK) :
    dqlite__db_exec db e = (e.rc, dqlite__error_printf db e.errmsg) := by
  simp [dqlite__db_exec, h]

theorem dqlite__db_begin_of_ok (w : DbWorld) (e : ExecResult)
    (h : e.rc = SQLITE_OK) (htx : w.db.in_a_tx = 0) :
    dqlite__db_begin w e =
      some (SQLITE_OK,
        { w with db := { w.db with in_a_tx := 1 },
                 tx_refcount := w.tx_refcount + 1 }) := by
  simp [dqlite__db_begin, dqlite__db_exec_of_ok _ _ h, htx,
    dqlite__db_update_tx_refcount]

theorem dqlite__db_begin_of_fail (w : DbWorld) (e : ExecResult)
    (h : e.rc ≠ SQLITE_OK) :
    dqlite__db_begin w e =
      some (e.rc, { w with db := dqlite__error_printf w.db e.errmsg }) := by
  simp [dqlite__db_begin, dqlite__db_exec_of_fail _ _ h, h]

theorem dqlite__db_begin_assert (w : DbWorld) (e : ExecResult)
    (h : e.rc = SQLITE_OK) (htx : w.db.in_a_tx ≠ 0) :
    dqlite__db_begin w e = none := by
  simp [dqlite__db_begin, dqlite__db_exec_of_ok _ _ h, htx]

theorem dqlite__db_commit_of_ok (w : DbWorld) (e : ExecResult)
    (h : e.rc = SQLITE_OK) (htx : w.db.in_a_tx = 1) :
    dqlite__db_commit w e =
      some (SQLITE_OK,
        { w with db := { w.db with in_a_tx := 0 },
                 tx_refcount := w.tx_refcount + (-1) }) := by
  simp [dqlite__db_commit, dqlite__db_exec_of_ok _ _ h, htx,
    dqlite__db_update_tx_refcount]

theorem dqlite__db_commit_of_fail (w : DbWorld) (e : ExecResult)
    (h : e.rc ≠ SQLITE_OK) (hb : e.rc ≠ SQLITE_BUSY) :
    dqlite__db_commit w e =
      some (e.rc, { w with db := dqlite__error_printf w.db e.errmsg }) := by
  simp [dqlite__db_commit, dqlite__db_exec_of_fail _ _ h, h, hb]

theorem dqlite__db_commit_of_busy (w : DbWorld) (e : ExecResult)
    (h : e.rc = SQLITE_BUSY) : dqlite__db_commit w e = none := by
  have hne : e.rc ≠ SQLITE_OK := by simp [h, SQLITE_BUSY, SQLITE_OK]
  simp [dqlite__db_commit, dqlite__db_exec_of_fail _ _ hne, h, hne,
    SQLITE_BUSY, SQLITE_OK]

theorem dqlite__db_commit_assert (w : DbWorld) (e : ExecResult)
    (h : e.rc = SQLITE_OK) (htx : w.db.in_a_tx ≠ 1) :
    dqlite__db_commit w e = none := by
  simp [dqlite__db_commit, dqlite__db_exec_of_ok _ _ h, htx]

theorem dqlite__db_rollback_of_ok (w : DbWorld) (e : ExecResult)
    (h : e.rc = SQLITE_OK) :
    dqlite__db_rollback w e =
      some (SQLITE_OK,
        { w with db := { w.db with in_a_tx := 0 },
                 tx_refcount := w.tx_refcount + (-1) }) := by
  simp [dqlite__db_rollback, dqlite__db_exec_of_ok _ _ h, h,
    dqlite__db_update_tx_refcount]

theorem dqlite__db_rollback_of_fail (w : DbWorld) (e : ExecResult)
    (h : e.rc ≠ SQLITE_OK) :
    dqlite__db_rollback w e =
      some (e.rc,
        { w with db := { dqlite__error_printf w.db e.errmsg with in_a_tx := 0 },
                 tx_refcount := w.tx_refcount + (-1) }) := by
  simp [dqlite__db_rollback, dqlite__db_exec_of_fail _ _ h, h,
    dqlite__db_update_tx_refcount]

theorem dqlite__db_rollback_spec (w : DbWorld) (e : ExecResult) :
    ∃ w1 : DbWorld,
      dqlite__db_rollback w e = some (e.rc, w1) ∧
      w1.db.in_a_tx = 0 ∧
      w1.tx_refcount = w.tx_refcount - 1 ∧
      w1.db.stmts = w.db.stmts ∧ w1.db.db = w.db.db ∧
      w1.liveConns = w.liveConns := by
  by_cases h : e.rc = SQLITE_OK
  · refine ⟨_, by rw [dqlite__db_rollback_of_ok w e h, h], ?_, ?_, ?_, ?_, ?_⟩ <;>
      simp [dqlite__error_printf]
    omega
  · refine ⟨_, by rw [dqlite__db_rollback_of_fail w e h], ?_, ?_, ?_, ?_, ?_⟩ <;>
      simp [dqlite__error_printf]
    omega

/-! ## What `dqlite__db_open` leaves untouched -/

theorem dqlite__db_exec_snd_in_a_tx (db : dqlite__db) (e : ExecResult) :
    ((dqlite__db_exec db e).2).in_a_tx = db.in_a_tx := by
  unfold dqlite__db_exec dqlite__error_printf
  split <;> rfl

theorem dqlite__db_exec_snd_db (db : dqlite__db) (e : ExecResult) :
    ((dqlite__db_exec db e).2).db = db.db := by
  unfold dqlite__db_exec dqlite__error_printf
  split <;> rfl

theorem dqlite__db_exec_snd_stmts (db : dqlite__db) (e : ExecResult) :
    ((dqlite__db_exec db e).2).stmts = db.stmts := by
  unfold dqlite__db_exec dqlite__error_printf
  split <;> rfl

theorem dqlite__db_open_in_a_tx (w : DbWorld) (c : OpenCalls) :
    ((dqlite__db_open w c).2).db.in_a_tx = w.db.in_a_tx := by
  unfold dqlite__db_open
  simp [apply_ite (Prod.snd (α := Int) (β := DbWorld)),
    apply_ite DbWorld.db, apply_ite dqlite__db.in_a_tx,
    dqlite__error_printf, dqlite__error_wrapf, dqlite__db_exec_snd_in_a_tx]

theorem dqlite__db_open_tx_refcount (w : DbWorld) (c : OpenCalls) :
    ((dqlite__db_open w c).2).tx_refcount = w.tx_refcount := by
  unfold dqlite__db_open
  simp [apply_ite (Prod.snd (α := Int) (β := DbWorld)),
    apply_ite DbWorld.tx_refcount]

theorem dqlite__db_open_db_handle (w : DbWorld) (c : OpenCalls) :
    ((dqlite__db_open w c).2).db.db = c.openHandle := by
  unfold dqlite__db_open
  simp [apply_ite (Prod.snd (α := Int) (β := DbWorld)),
    apply_ite DbWorld.db, apply_ite dqlite__db.db,
    dqlite__error_printf, dqlite__error_wrapf, dqlite__db_exec_snd_db]

theorem dqlite__db_open_liveConns (w : DbWorld) (c : OpenCalls) :
    ((dqlite__db_open w c).2).liveConns =
      match c.openHandle with
      | some h => h :: w.liveConns
      | none => w.liveConns := by
  unfold dqlite__db_open
  simp [apply_ite (Prod.snd (α := Int) (β := DbWorld)),
    apply_ite DbWorld.liveConns]

/-! ## Freshness of allocated registry ids -/

theorem length_filter_succ_le (ids : List Nat) (n : Nat) :
    (ids.filter (fun i => n + 1 ≤ i)).length
      ≤ (ids.filter (fun i => n ≤ i)).length := by
  induction ids with
  | nil => simp
  | cons x xs ih =>
    by_cases h1 : n + 1 ≤ x
    · have h2 : n ≤ x := by omega
      simp [List.filter_cons, h1, h2]
      omega
    · by_cases h2 : n ≤ x
      · simp [List.filter_cons, h1, h2]
        omega
      · simp [List.filter_cons, h1, h2]
        exact ih

theorem length_filter_succ_lt (ids : List Nat) (n : Nat) (hn : n ∈ ids) :
    (ids.filter (fun i => n + 1 ≤ i)).length
      < (ids.filter (fun i => n ≤ i)).length := by
  induction ids with
  | nil => cases hn
  | cons x xs ih =>
    rcases List.mem_cons.mp hn with h | h
    · subst h
      have h1 : ¬ n + 1 ≤ n := by omega
      have h2 : n ≤ n := le_refl n
      have h3 := length_filter_succ_le xs n
      simp [List.filter_cons, h1, h2]
      omega
    · by_cases h1 : n + 1 ≤ x
      · have h2 : n ≤ x := by omega
        have h3 := ih h
        simp [List.filter_cons, h1, h2]
        omega
      · by_cases h2 : n ≤ x
        · have h3 := ih h
          simp [List.filter_cons, h1, h2]
          omega
        · simp [List.filter_cons, h1, h2]
          exact ih h

theorem freeFrom_not_mem (ids : List Nat) :
    ∀ (k n : Nat), (ids.filter (fun i => n ≤ i)).length < k →
      freeFrom ids k n ∉ ids := by
  intro k
  induction k with
  | zero => intro n h; omega
  | succ k ih =>
    intro n h
    by_cases hn : n ∈ ids
    · have hlt := length_filter_succ_lt ids n hn
      simpa [freeFrom, hn] using ih (n + 1) (by omega)
    · simp [freeFrom, hn]

theorem lowestFreeId_not_mem (r : StmtRegistry) :
    lowestFreeId r ∉ registryIds r := by
  apply freeFrom_not_mem
  have h : (registryIds r).filter (fun i => 0 ≤ i) = registryIds r :=
    List.filter_eq_self.mpr (by intro a _; simp)
  rw [h]
  omega

theorem registry_del_add (r : StmtRegistry) (s : Stmt)
    (hid : s.id = (dqlite__stmt_registry_add r).2.id) :
    dqlite__stmt_registry_del (dqlite__stmt_registry_add r).1 s = (0, r) := by
  have hfree := lowestFreeId_not_mem r
  have hid2 : s.id = lowestFreeId r := hid
  have hmem : s.id ∈ registryIds (dqlite__stmt_registry_add r).1 := by
    simp [dqlite__stmt_registry_add, registryIds, hid2]
  rw [dqlite__stmt_registry_del, if_pos hmem]
  simp [dqlite__stmt_registry_add, List.filter_append, hid2]
  intro a ha hcon
  exact hfree (hcon ▸ List.mem_map_of_mem _ ha)

theorem registry_del_mem (r : StmtRegistry) (s : Stmt)
    (h : s.id ∈ registryIds r) :
    dqlite__stmt_registry_del r s = (0, r.filter (fun t => t.id ≠ s.id)) := by
  simp [dqlite__stmt_registry_del, h]

theorem not_mem_ids_filter (r : StmtRegistry) (s : Stmt) :
    s.id ∉ registryIds (r.filter (fun t => t.id ≠ s.id)) := by
  intro hmem
  obtain ⟨t, ht, hts⟩ := List.mem_map.mp hmem
  have := (List.mem_filter.mp ht).2
  simp [hts] at this

/-! ## Claims -/

/-- Claim C3: every `dqlite__db_rollback` call completes with `in_a_tx = 0`
and the replication file's `tx_refcount` decremented by exactly 1, whether or
not the underlying ROLLBACK succeeded, and the engine's code is returned to
the caller in either case. -/
theorem claim_C3 (w : DbWorld) (e : ExecResult) :
    ∃ w1 : DbWorld,
      dqlite__db_rollback w e = some (e.rc, w1) ∧
      w1.db.in_a_tx = 0 ∧ w1.tx_refcount = w.tx_refcount - 1 := by
  obtain ⟨w1, h1, h2, h3, -, -, -⟩ := dqlite__db_rollback_spec w e
  exact ⟨w1, h1, h2, h3⟩

/-- Claim C9: calling `dqlite__db_rollback` with no transaction open
(`in_a_tx = 0`) still decrements `tx_refcount` by 1, driving it below its
pre-call value; the decrement is not guarded by `in_a_tx`. -/
theorem claim_C9 (w : DbWorld) (e : ExecResult) (_htx : w.db.in_a_tx = 0) :
    ∃ w1 : DbWorld,
      dqlite__db_rollback w e = some (e.rc, w1) ∧
      w1.tx_refcount = w.tx_refcount - 1 ∧
      w1.tx_refcount < w.tx_refcount := by
  obtain ⟨w1, h1, -, h3, -, -, -⟩ := dqlite__db_rollback_spec w e
  exact ⟨w1, h1, h3, by omega⟩

/-- Witness for C9 at a concrete post-init world and failing engine call. -/
theorem claim_C9_witness :
    ∃ w1 : DbWorld,
      dqlite__db_rollback w0 eFail = some (eFail.rc, w1) ∧
      w1.tx_refcount = w0.tx_refcount - 1 ∧
      w1.tx_refcount < w0.tx_refcount :=
  claim_C9 w0 eFail rfl

/-- Claim C7: if `dqlite__db_begin` is never invoked while `in_a_tx` is 1,
its assertion `in_a_tx == 0` never fires (the call never aborts); and a begin
whose engine call fails (as SQLite forces when a transaction is already open
on the connection) returns the engine's error with `in_a_tx`, the refcount and
the registry untouched. -/
theorem claim_C7 (w : DbWorld) (e : ExecResult) :
    (w.db.in_a_tx = 0 → dqlite__db_begin w e ≠ none) ∧
    (e.rc ≠ SQLITE_OK →
      ∃ w1 : DbWorld,
        dqlite__db_begin w e = some (e.rc, w1) ∧
        w1.db.in_a_tx = w.db.in_a_tx ∧
        w1.tx_refcount = w.tx_refcount ∧
        w1.db.stmts = w.db.stmts) := by
  constructor
  · intro htx
    by_cases he : e.rc = SQLITE_OK
    · rw [dqlite__db_begin_of_ok w e he htx]
      simp
    · rw [dqlite__db_begin_of_fail w e he]
      simp
  · intro he
    refine ⟨_, dqlite__db_begin_of_fail w e he, ?_, ?_, ?_⟩ <;>
      simp [dqlite__error_printf]

/-- Witness for C7: a begin on a fresh world never aborts, and a begin whose
engine BEGIN fails while a transaction is open leaves the state untouched. -/
theorem claim_C7_witness :
    dqlite__db_begin w0 eOK ≠ none ∧
    (∃ w1 : DbWorld,
      dqlite__db_begin wTx eFail = some (eFail.rc, w1) ∧
      w1.db.in_a_tx = wTx.db.in_a_tx ∧
      w1.tx_refcount = wTx.tx_refcount ∧
      w1.db.stmts = wTx.db.stmts) :=
  ⟨(claim_C7 w0 eOK).1 rfl, (claim_C7 wTx eFail).2 (by decide)⟩

/-- Claim C8: a `SQLITE_BUSY` engine result makes exactly one operation abort
on an assertion, `dqlite__db_commit`; `begin`, `rollback`, `open`, `prepare`
and `finalize` all hand a busy code back as an ordinary error. -/
theorem claim_C8 (w : DbWorld) (db : dqlite__db) (e : ExecResult)
    (c : PrepareCalls) (s : Stmt) (msg : String) (oc : OpenCalls)
    (hbusy : e.rc = SQLITE_BUSY) :
    dqlite__db_commit w e = none ∧
    (∃ w1, dqlite__db_begin w e = some (SQLITE_BUSY, w1)) ∧
    (∃ w1, dqlite__db_rollback w e = some (SQLITE_BUSY, w1)) ∧
    (c.addFails = false → c.rc = SQLITE_BUSY →
      (dqlite__db_prepare db c).1 = SQLITE_BUSY) ∧
    (s.stmt ≠ none → s.id ∈ registryIds db.stmts →
      ∃ db1, dqlite__db_finalize db s SQLITE_BUSY msg = some (SQLITE_BUSY, db1)) ∧
    (oc.openRc = SQLITE_OK → oc.extRc = SQLITE_OK → oc.page.rc = SQLITE_BUSY →
      (dqlite__db_open w oc).1 = SQLITE_BUSY) := by
  have hne : e.rc ≠ SQLITE_OK := by rw [hbusy]; decide
  refine ⟨dqlite__db_commit_of_busy w e hbusy, ?_, ?_, ?_, ?_, ?_⟩
  · exact ⟨_, by rw [dqlite__db_begin_of_fail w e hne, hbusy]⟩
  · obtain ⟨w1, h1, -, -, -, -, -⟩ := dqlite__db_rollback_spec w e
    exact ⟨w1, by rw [h1, hbusy]⟩
  · intro h1 h2
    have hd : c.rc ≠ SQLITE_OK := by rw [h2]; decide
    have hbo : SQLITE_BUSY ≠ SQLITE_OK := by decide
    simp [dqlite__db_prepare, h1, h2, hd, hbo]
  · intro h1 h2
    have hne2 : SQLITE_BUSY ≠ SQLITE_OK := by decide
    match hs : s.stmt with
    | none => exact absurd hs h1
    | some x =>
      refine ⟨{ dqlite__error_printf db msg with
        stmts := db.stmts.filter (fun t => t.id ≠ s.id) }, ?_⟩
      simp [dqlite__db_finalize, hs, hne2, dqlite__stmt_registry_del, h2,
        dqlite__error_printf]
  · intro h1 h2 h3
    have hd : oc.page.rc ≠ SQLITE_OK := by rw [h3]; decide
    have hbo : SQLITE_BUSY ≠ SQLITE_OK := by decide
    simp [dqlite__db_open, h1, h2, dqlite__db_exec_fst, hd, h3, hbo]

/-- Witness for C8 with a concrete busy engine call, one registered statement
and a concrete open sequence whose page-size pragma reports busy. -/
theorem claim_C8_witness :
    dqlite__db_commit wTx eBusy = none ∧
    (∃ w1, dqlite__db_begin wTx eBusy = some (SQLITE_BUSY, w1)) ∧
    (∃ w1, dqlite__db_rollback wTx eBusy = some (SQLITE_BUSY, w1)) ∧
    (dqlite__db_prepare dbOne pcBusy).1 = SQLITE_BUSY ∧
    (∃ db1, dqlite__db_finalize dbOne sLive SQLITE_BUSY "busy"
      = some (SQLITE_BUSY, db1)) ∧
    (dqlite__db_open wTx ocBusy).1 = SQLITE_BUSY := by
  have h := claim_C8 wTx dbOne eBusy pcBusy sLive "busy" ocBusy rfl
  exact ⟨h.1, h.2.1, h.2.2.1, h.2.2.2.1 rfl rfl,
    h.2.2.2.2.1 (by decide) (by decide), h.2.2.2.2.2 rfl rfl rfl⟩

/-- Claim C4: `dqlite__db_prepare` allocates a fresh registry entry before
compiling (the add step appends an entry whose id is not in use), and when
compilation fails that entry is deleted again and the engine's code returned,
leaving the registry exactly as before the call. -/
theorem claim_C4 (db : dqlite__db) (c : PrepareCalls)
    (ha : c.addFails = false) (hc : c.rc ≠ SQLITE_OK) :
    (dqlite__stmt_registry_add db.stmts).1
      = db.stmts ++ [(dqlite__stmt_registry_add db.stmts).2] ∧
    (dqlite__stmt_registry_add db.stmts).2.id ∉ registryIds db.stmts ∧
    (dqlite__db_prepare db c).1 = c.rc ∧
    (dqlite__db_prepare db c).2.1.stmts = db.stmts ∧
    (dqlite__db_prepare db c).2.2 = none := by
  have hdel := registry_del_add db.stmts
    { (dqlite__stmt_registry_add db.stmts).2 with db := db.db } rfl
  refine ⟨rfl, lowestFreeId_not_mem db.stmts, ?_, ?_, ?_⟩ <;>
    simp [dqlite__db_prepare, ha, hc, hdel]

/-- Witness for C4 at a concrete one-statement registry and a failing
compilation. -/
theorem claim_C4_witness :
    (dqlite__stmt_registry_add dbOne.stmts).1
      = dbOne.stmts ++ [(dqlite__stmt_registry_add dbOne.stmts).2] ∧
    (dqlite__stmt_registry_add dbOne.stmts).2.id ∉ registryIds dbOne.stmts ∧
    (dqlite__db_prepare dbOne pcFail).1 = pcFail.rc ∧
    (dqlite__db_prepare dbOne pcFail).2.1.stmts = dbOne.stmts ∧
    (dqlite__db_prepare dbOne pcFail).2.2 = none :=
  claim_C4 dbOne pcFail rfl (by decide)

/-- Claim C5: for a statement obtained from this database's registry,
`dqlite__db_finalize` skips the engine finalize when the compiled handle has
already been released (returning `SQLITE_OK` for that step) and otherwise
returns the engine's code, and in every case the registry entry is removed
(all other entries surviving) with the registry deletion succeeding. -/
theorem claim_C5 (db : dqlite__db) (s : Stmt) (finRc : Int) (finMsg : String)
    (hget : dqlite__db_stmt db s.id = some s) :
    ∃ db1 : dqlite__db,
      dqlite__db_finalize db s finRc finMsg
        = some (if s.stmt = none then SQLITE_OK else finRc, db1) ∧
      s.id ∉ registryIds db1.stmts ∧
      ∀ t ∈ db.stmts, t.id ≠ s.id → t ∈ db1.stmts := by
  have hmem : s ∈ db.stmts := List.mem_of_find?_eq_some hget
  have hid : s.id ∈ registryIds db.stmts := List.mem_map_of_mem _ hmem
  have hfilter : ∀ t ∈ db.stmts, t.id ≠ s.id →
      t ∈ db.stmts.filter (fun t => t.id ≠ s.id) := by
    intro t ht hne
    exact List.mem_filter.mpr ⟨ht, by simpa using hne⟩
  have hdel : dqlite__stmt_registry_del db.stmts { s with stmt := none }
      = (0, db.stmts.filter (fun t => t.id ≠ s.id)) := by
    simp [dqlite__stmt_registry_del, hid]
  match hs : s.stmt with
  | none =>
    refine ⟨{ db with stmts := db.stmts.filter (fun t => t.id ≠ s.id) }, ?_,
      not_mem_ids_filter _ _, hfilter⟩
    simp [dqlite__db_finalize, hs, hdel]
  | some x =>
    by_cases hrc : finRc = SQLITE_OK
    · refine ⟨{ db with stmts := db.stmts.filter (fun t => t.id ≠ s.id) }, ?_,
        not_mem_ids_filter _ _, hfilter⟩
      simp [dqlite__db_finalize, hs, hrc, hdel]
    · refine ⟨{ dqlite__error_printf db finMsg with
        stmts := db.stmts.filter (fun t => t.id ≠ s.id) }, ?_,
        not_mem_ids_filter _ _, hfilter⟩
      simp [dqlite__db_finalize, hs, hrc, hdel, dqlite__error_printf]

/-- Witness for C5: finalizing the one live statement of a concrete registry
while the engine finalize reports an error. -/
theorem claim_C5_witness :
    ∃ db1 : dqlite__db,
      dqlite__db_finalize dbOne sLive 1 "disk error"
        = some (if sLive.stmt = none then SQLITE_OK else 1, db1) ∧
      sLive.id ∉ registryIds db1.stmts ∧
      ∀ t ∈ dbOne.stmts, t.id ≠ sLive.id → t ∈ db1.stmts :=
  claim_C5 dbOne sLive 1 "disk error" (by decide)

/-- Claim C2: after a successful open, a successful begin followed by a
successful commit leaves `in_a_tx = 0`, with begin adding exactly 1 to the
replication refcount and commit subtracting exactly 1, for a net change of
zero relative to the pre-begin value. -/
theorem claim_C2 (conn0 : Option Nat) (tc : Int) (lc : List Nat)
    (c : OpenCalls) (e1 e2 : ExecResult)
    (_hopen : (dqlite__db_open (initWorld conn0 tc lc) c).1 = SQLITE_OK)
    (h1 : e1.rc = SQLITE_OK) (h2 : e2.rc = SQLITE_OK) :
    ∃ w2 w3 : DbWorld,
      dqlite__db_begin (dqlite__db_open (initWorld conn0 tc lc) c).2 e1
        = some (SQLITE_OK, w2) ∧
      dqlite__db_commit w2 e2 = some (SQLITE_OK, w3) ∧
      w2.tx_refcount
        = ((dqlite__db_open (initWorld conn0 tc lc) c).2).tx_refcount + 1 ∧
      w3.db.in_a_tx = 0 ∧
      w3.tx_refcount
        = ((dqlite__db_open (initWorld conn0 tc lc) c).2).tx_refcount := by
  have htx : ((dqlite__db_open (initWorld conn0 tc lc) c).2).db.in_a_tx = 0 := by
    rw [dqlite__db_open_in_a_tx]
    rfl
  have hb := dqlite__db_begin_of_ok _ e1 h1 htx
  refine ⟨_, _, hb, dqlite__db_commit_of_ok _ e2 h2 (by simp), by simp, by simp,
    by simp⟩

/-- Witness for C2: a concrete fully successful open/begin/commit run. -/
theorem claim_C2_witness :
    ∃ w2 w3 : DbWorld,
      dqlite__db_begin (dqlite__db_open (initWorld none 0 []) ocOK).2 eOK
        = some (SQLITE_OK, w2) ∧
      dqlite__db_commit w2 eOK = some (SQLITE_OK, w3) ∧
      w2.tx_refcount
        = ((dqlite__db_open (initWorld none 0 []) ocOK).2).tx_refcount + 1 ∧
      w3.db.in_a_tx = 0 ∧
      w3.tx_refcount
        = ((dqlite__db_open (initWorld none 0 []) ocOK).2).tx_refcount :=
  claim_C2 none 0 [] ocOK eOK eOK (by decide) rfl rfl

/-- Claim C10: when open fails after `sqlite3_open_v2` succeeded, the engine
handle stays stored in `db->db` and the connection stays live (open closes
nothing on its error paths); a later `dqlite__db_close` then releases exactly
that connection, because it closes `db->db` whenever it is non-NULL. -/
theorem claim_C10 (w : DbWorld) (c : OpenCalls) (h : Nat)
    (hh : c.openHandle = some h) (_ho : c.openRc = SQLITE_OK)
    (_hfail : (dqlite__db_open w c).1 ≠ SQLITE_OK) :
    ((dqlite__db_open w c).2).db.db = some h ∧
    h ∈ ((dqlite__db_open w c).2).liveConns ∧
    ∃ w2 : DbWorld,
      dqlite__db_close (dqlite__db_open w c).2 SQLITE_OK = some w2 ∧
      w2.liveConns = ((dqlite__db_open w c).2).liveConns.erase h := by
  have h1 : ((dqlite__db_open w c).2).db.db = some h := by
    rw [dqlite__db_open_db_handle, hh]
  have h2 : ((dqlite__db_open w c).2).liveConns = h :: w.liveConns := by
    rw [dqlite__db_open_liveConns, hh]
  refine ⟨h1, by rw [h2]; exact List.mem_cons_self _ _, ?_⟩
  refine ⟨{ (dqlite__db_open w c).2 with
      db := { ((dqlite__db_open w c).2).db with stmts := [], error := "" },
      liveConns := ((dqlite__db_open w c).2).liveConns.erase h }, ?_, rfl⟩
  simp [dqlite__db_close, h1]

/-- Witness for C10: open succeeds through `sqlite3_open_v2` but fails at the
foreign-keys pragma; the handle remains stored and live and close releases
it. -/
theorem claim_C10_witness :
    ((dqlite__db_open w0 ocFkFail).2).db.db = some 5 ∧
    5 ∈ ((dqlite__db_open w0 ocFkFail).2).liveConns ∧
    ∃ w2 : DbWorld,
      dqlite__db_close (dqlite__db_open w0 ocFkFail).2 SQLITE_OK = some w2 ∧
      w2.liveConns = ((dqlite__db_open w0 ocFkFail).2).liveConns.erase 5 :=
  claim_C10 w0 ocFkFail 5 rfl rfl (by decide)

/-- Counterexample for C6 as stated: when the WAL replication leader
registration step fails, `dqlite__db_open` stores the fixed message
"unable to set WAL replication" and the underlying engine message does not
occur in the error context at all (so it is not wrapped with any prefix). -/
theorem claim_C6_counterexample :
    (dqlite__db_open w0 ocReplFail).1 = 1 ∧
    ((dqlite__db_open w0 ocReplFail).2).db.error
      = "unable to set WAL replication" ∧
    ¬ ∃ a b : String, ((dqlite__db_open w0 ocReplFail).2).db.error
        = a ++ ocReplFail.replErrmsg ++ b := by
  have herr : ((dqlite__db_open w0 ocReplFail).2).db.error
      = "unable to set WAL replication" := by decide
  refine ⟨by decide, herr, ?_⟩
  rintro ⟨a, b, hab⟩
  rw [herr] at hab
  have hlen := congrArg String.length hab
  rw [String.length_append, String.length_append] at hlen
  have h1 : ("unable to set WAL replication" : String).length = 29 := by decide
  have h2 : 30 ≤ (ocReplFail.replErrmsg).length := by decide
  rw [h1] at hlen
  omega

/-- Claim C6 (amended): a failing configuration step makes open return that
step's engine code immediately; for the four pragma steps the error context
holds the engine message wrapped with the step's prefix (for the WAL
journaling step the prefix "unable to set WAL mode"), while a failing WAL
replication leader registration stores the fixed message "unable to set WAL
replication" without the engine message. -/
theorem claim_C6_amended (w : DbWorld) (c : OpenCalls)
    (ho : c.openRc = SQLITE_OK) (he : c.extRc = SQLITE_OK) :
    (c.page.rc ≠ SQLITE_OK →
      (dqlite__db_open w c).1 = c.page.rc ∧
      ((dqlite__db_open w c).2).db.error
        = "unable to set page size" ++ ": " ++ c.page.errmsg) ∧
    (c.page.rc = SQLITE_OK → c.sync.rc ≠ SQLITE_OK →
      (dqlite__db_open w c).1 = c.sync.rc ∧
      ((dqlite__db_open w c).2).db.error
        = "unable to switch off syncs" ++ ": " ++ c.sync.errmsg) ∧
    (c.page.rc = SQLITE_OK → c.sync.rc = SQLITE_OK → c.wal.rc ≠ SQLITE_OK →
      (dqlite__db_open w c).1 = c.wal.rc ∧
      ((dqlite__db_open w c).2).db.error
        = "unable to set WAL mode: %s" ++ ": " ++ c.wal.errmsg ∧
      ∃ rest, ((dqlite__db_open w c).2).db.error
        = "unable to set WAL mode" ++ rest) ∧
    (c.page.rc = SQLITE_OK → c.sync.rc = SQLITE_OK → c.wal.rc = SQLITE_OK →
      c.replRc ≠ SQLITE_OK →
      (dqlite__db_open w c).1 = c.replRc ∧
      ((dqlite__db_open w c).2).db.error = "unable to set WAL replication") ∧
    (c.page.rc = SQLITE_OK → c.sync.rc = SQLITE_OK → c.wal.rc = SQLITE_OK →
      c.replRc = SQLITE_OK → c.fk.rc ≠ SQLITE_OK →
      (dqlite__db_open w c).1 = c.fk.rc ∧
      ((dqlite__db_open w c).2).db.error
        = "unable to set foreign keys checks: %s" ++ ": " ++ c.fk.errmsg) := by
  refine ⟨?_, ?_, ?_, ?_, ?_⟩
  · intro h3
    constructor <;>
      simp [dqlite__db_open, ho, he, h3, dqlite__db_exec_of_fail,
        dqlite__error_printf, dqlite__error_wrapf, dqlite__db_exec_fst]
  · intro h3 h4
    constructor <;>
      simp [dqlite__db_open, ho, he, h3, h4, dqlite__db_exec_of_ok,
        dqlite__db_exec_of_fail, dqlite__error_printf, dqlite__error_wrapf,
        dqlite__db_exec_fst]
  · intro h3 h4 h5
    refine ⟨?_, ?_, ⟨": %s: " ++ c.wal.errmsg, ?_⟩⟩ <;>
      simp [dqlite__db_open, ho, he, h3, h4, h5, dqlite__db_exec_of_ok,
        dqlite__db_exec_of_fail, dqlite__error_printf, dqlite__error_wrapf,
        dqlite__db_exec_fst]
    all_goals rw [← String.append_assoc]
    all_goals congr 1
  · intro h3 h4 h5 h6
    constructor <;>
      simp [dqlite__db_open, ho, he, h3, h4, h5, h6, dqlite__db_exec_of_ok,
        dqlite__error_printf, dqlite__error_wrapf, dqlite__db_exec_fst]
  · intro h3 h4 h5 h6 h7
    constructor <;>
      simp [dqlite__db_open, ho, he, h3, h4, h5, h6, h7, dqlite__db_exec_of_ok,
        dqlite__db_exec_of_fail, dqlite__error_printf, dqlite__error_wrapf,
        dqlite__db_exec_fst]

/-- Witness for the amended C6: concrete open sequences failing at each of
the five configuration steps, with the resulting codes and error texts. -/
theorem claim_C6_witness :
    ((dqlite__db_open w0 ocPageFail).1 = ocPageFail.page.rc ∧
      ((dqlite__db_open w0 ocPageFail).2).db.error
        = "unable to set page size" ++ ": " ++ ocPageFail.page.errmsg) ∧
    ((dqlite__db_open w0 ocSyncFail).1 = ocSyncFail.sync.rc ∧
      ((dqlite__db_open w0 ocSyncFail).2).db.error
        = "unable to switch off syncs" ++ ": " ++ ocSyncFail.sync.errmsg) ∧
    ((dqlite__db_open w0 ocWalFail).1 = ocWalFail.wal.rc ∧
      ((dqlite__db_open w0 ocWalFail).2).db.error
        = "unable to set WAL mode: %s" ++ ": " ++ ocWalFail.wal.errmsg ∧
      ∃ rest, ((dqlite__db_open w0 ocWalFail).2).db.error
        = "unable to set WAL mode" ++ rest) ∧
    ((dqlite__db_open w0 ocReplFail).1 = ocReplFail.replRc ∧
      ((dqlite__db_open w0 ocReplFail).2).db.error
        = "unable to set WAL replication") ∧
    ((dqlite__db_open w0 ocFkFail).1 = ocFkFail.fk.rc ∧
      ((dqlite__db_open w0 ocFkFail).2).db.error
        = "unable to set foreign keys checks: %s" ++ ": " ++ ocFkFail.fk.errmsg) :=
  ⟨(claim_C6_amended w0 ocPageFail rfl rfl).1 (by decide),
   (claim_C6_amended w0 ocSyncFail rfl rfl).2.1 rfl (by decide),
   (claim_C6_amended w0 ocWalFail rfl rfl).2.2.1 rfl rfl (by decide),
   (claim_C6_amended w0 ocReplFail rfl rfl).2.2.2.1 rfl rfl rfl (by decide),
   (claim_C6_amended w0 ocFkFail rfl rfl).2.2.2.2 rfl rfl rfl rfl (by decide)⟩

/-- Core invariant: on conforming traces whose engine state mirrors
`in_a_tx`, every run completes (no assertion fires) and the final `in_a_tx`
is the flag the specification prescribes. -/
theorem runTxOps_conforms (ops : List TxOp) :
    ∀ (w : DbWorld) (g g2 : Engine),
      w.db.in_a_tx = (if g.open_tx then 1 else 0) →
      engineRun g ops g2 →
      ∃ w1, runTxOps w ops = some w1 ∧
        w1.db.in_a_tx = specInTxFlag w.db.in_a_tx ops := by
  induction ops with
  | nil =>
    intro w g g2 hinv hrun
    exact ⟨w, rfl, rfl⟩
  | cons op ops ih =>
    intro w g g2 hinv hrun
    obtain ⟨g1, hconf, hrun1⟩ := hrun
    cases op with
    | tx_begin e =>
      by_cases he : e.rc = SQLITE_OK
      · obtain ⟨hg, hg1⟩ := hconf.1 he
        have htx : w.db.in_a_tx = 0 := by rw [hinv, hg]; rfl
        have hstep := dqlite__db_begin_of_ok w e he htx
        obtain ⟨w2, hw2, hflag⟩ :=
          ih { w with db := { w.db with in_a_tx := 1 },
                      tx_refcount := w.tx_refcount + 1 } g1 g2
            (by simp [hg1]) hrun1
        refine ⟨w2, ?_, ?_⟩
        · simp [runTxOps, dqlite__db_step, hstep, hw2]
        · rw [hflag]
          simp [specInTxFlag, he, htx]
      · have hg1 : g1 = g := hconf.2 he
        have hstep := dqlite__db_begin_of_fail w e he
        obtain ⟨w2, hw2, hflag⟩ :=
          ih { w with db := dqlite__error_printf w.db e.errmsg } g1 g2
            (by simp [hg1, dqlite__error_printf, hinv]) hrun1
        refine ⟨w2, ?_, ?_⟩
        · simp [runTxOps, dqlite__db_step, hstep, hw2]
        · rw [hflag]
          simp [specInTxFlag, he, dqlite__error_printf]
    | tx_commit e =>
      by_cases he : e.rc = SQLITE_OK
      · obtain ⟨hg, hg1⟩ := hconf.1 he
        have htx : w.db.in_a_tx = 1 := by rw [hinv, hg]; rfl
        have hstep := dqlite__db_commit_of_ok w e he htx
        obtain ⟨w2, hw2, hflag⟩ :=
          ih { w with db := { w.db with in_a_tx := 0 },
                      tx_refcount := w.tx_refcount + (-1) } g1 g2
            (by simp [hg1]) hrun1
        refine ⟨w2, ?_, ?_⟩
        · simp [runTxOps, dqlite__db_step, hstep, hw2]
        · rw [hflag]
          simp [specInTxFlag, he]
      · obtain ⟨hnb, hg1⟩ := hconf.2 he
        have hstep := dqlite__db_commit_of_fail w e he hnb
        obtain ⟨w2, hw2, hflag⟩ :=
          ih { w with db := dqlite__error_printf w.db e.errmsg } g1 g2
            (by simp [hg1, dqlite__error_printf, hinv]) hrun1
        refine ⟨w2, ?_, ?_⟩
        · simp [runTxOps, dqlite__db_step, hstep, hw2]
        · rw [hflag]
          simp [specInTxFlag, he, dqlite__error_printf]
    | tx_rollback e =>
      have hg1 : g1.open_tx = false := hconf
      by_cases he : e.rc = SQLITE_OK
      · have hstep := dqlite__db_rollback_of_ok w e he
        obtain ⟨w2, hw2, hflag⟩ :=
          ih { w with db := { w.db with in_a_tx := 0 },
                      tx_refcount := w.tx_refcount + (-1) } g1 g2
            (by simp [hg1]) hrun1
        refine ⟨w2, ?_, ?_⟩
        · simp [runTxOps, dqlite__db_step, hstep, hw2]
        · rw [hflag]
          simp [specInTxFlag]
      · have hstep := dqlite__db_rollback_of_fail w e he
        obtain ⟨w2, hw2, hflag⟩ := ih
          { w with db := { dqlite__error_printf w.db e.errmsg with in_a_tx := 0 },
                   tx_refcount := w.tx_refcount + (-1) } g1 g2
          (by simp [hg1]) hrun1
        refine ⟨w2, ?_, ?_⟩
        · simp [runTxOps, dqlite__db_step, hstep, hw2]
        · rw [hflag]
          simp [specInTxFlag]

/-- Claim C1: starting from `dqlite__db_init` (where `in_a_tx = 0`), for any
sequence of begin/commit/rollback calls whose engine results conform to
SQLite's transaction semantics, the run completes and `in_a_tx` ends up 1
exactly when a BEGIN has succeeded and no subsequent COMMIT/ROLLBACK has
since completed, 0 otherwise. -/
theorem claim_C1 (conn0 : Option Nat) (tc : Int) (lc : List Nat)
    (ops : List TxOp) (g2 : Engine)
    (hconf : engineRun { open_tx := false } ops g2) :
    (dqlite__db_init conn0).in_a_tx = 0 ∧
    ∃ w1, runTxOps (initWorld conn0 tc lc) ops = some w1 ∧
      w1.db.in_a_tx = specInTxFlag 0 ops := by
  refine ⟨rfl, ?_⟩
  have h := runTxOps_conforms ops (initWorld conn0 tc lc)
    { open_tx := false } g2 rfl hconf
  simpa [initWorld, dqlite__db_init] using h

/-- Witness for C1 on the sample trace. -/
theorem claim_C1_witness :
    (dqlite__db_init none).in_a_tx = 0 ∧
    ∃ w1, runTxOps (initWorld none 0 []) opsW = some w1 ∧
      w1.db.in_a_tx = specInTxFlag 0 opsW :=
  claim_C1 none 0 [] opsW { open_tx := false }
    ⟨{ open_tx := true },
      by constructor <;> intro h <;> simp_all [engineConforms, eOK, SQLITE_OK],
      { open_tx := false },
      by constructor <;> intro h <;> simp_all [engineConforms, eOK, SQLITE_OK],
      { open_tx := false },
      by simp [engineConforms],
      rfl⟩

end Dqlite
